import Mathlib

/-!
Shallow embedding of the chart core of the Data_visualization_app repository:
the column classifier (`DataVisualizer._classify_columns`), the chart
compatibility predicates (`BarChart/LineChart/ScatterChart.is_compatible`),
the suggestion generator (`DataVisualizer.get_chart_suggestions`) and the
chart-creation error flow (`BarChart.create_chart`,
`DataVisualizer.create_chart`).

Modelling conventions:
* A pandas DataFrame is a `Table`: a list of named, dtype-tagged columns of
  optional scalar `Value`s plus an explicit row count (`len(df)`).
* Python numeric scalars are modelled as rationals (`ℚ`); the float product
  `len(df) * 0.1` is modelled as the exact rational `nrows / 10`.
* A missing entry (NaN/None) is `Option.none`.
* Python `True`/`False` compare equal to `1`/`0`, so the literal set
  `{0, 1, True, False}` is the two-element set `{0, 1}` and boolean cells are
  represented as `num 1` / `num 0`.
* `NaN > 50` is false in Python, so the mean-string-length test is false when
  the column holds no string values.
-/

namespace DataViz

/-- A scalar cell value.  `obj` stands for an arbitrary Python object that is
neither a number, a string, nor a timestamp, distinguishable only by
identity. -/
inductive Value where
  | num (q : ℚ)
  | str (s : String)
  | time (ts : ℤ)
  | obj (id : ℕ)
  deriving DecidableEq

/-- The pandas dtype of a column, at the granularity the classifier inspects:
`is_numeric_dtype`, `is_datetime64_any_dtype`, `is_categorical_dtype`,
`is_string_dtype` (strings and generic object columns), and everything
else. -/
inductive DType where
  | numericD
  | datetimeD
  | categoricalD
  | stringD
  | otherD
  deriving DecidableEq

/-- A named DataFrame column. -/
structure Column where
  name : String
  dtype : DType
  values : List (Option Value)
  deriving DecidableEq

/-- A DataFrame: ordered columns plus the row count `len(df)`. -/
structure Table where
  cols : List Column
  nrows : ℕ
  deriving DecidableEq

/-- `df.empty`: true when either axis has length zero. -/
def Table.isEmpty (t : Table) : Bool :=
  decide (t.nrows = 0) || t.cols.isEmpty

/-- Whether the table has a column of the given name. -/
def Table.hasCol (t : Table) (n : String) : Bool :=
  t.cols.any (fun c => c.name == n)

/-- `series.dropna()`: the non-missing values, in order. -/
def dropna (vs : List (Option Value)) : List Value :=
  vs.filterMap id

/-- `series.nunique()`: the number of distinct non-missing values. -/
def nunique (vs : List (Option Value)) : ℕ :=
  (dropna vs).dedup.length

/-- `set(series.dropna().unique()).issubset({0, 1, True, False})`:
every distinct non-missing value is numerically 0 or 1. -/
def isBoolEncoded (vs : List (Option Value)) : Bool :=
  (dropna vs).dedup.all (fun v => v == Value.num 0 || v == Value.num 1)

/-- The lengths of the string-valued entries of the column
(`series.str.len()` yields NaN on non-strings and the mean skips NaN). -/
def strLens (vs : List (Option Value)) : List ℕ :=
  (dropna vs).filterMap (fun v =>
    match v with
    | Value.str s => some s.length
    | _ => none)

/-- `series.str.len().mean() > 50`: the mean length of the string entries
exceeds 50, stated over the naturals (`sum / count > 50 ↔ sum > 50 * count`,
exactly).  When there are no string entries the mean is NaN and the
comparison is false. -/
def meanStrLenGt50 (vs : List (Option Value)) : Bool :=
  let ls := strLens vs
  decide (0 < ls.length ∧ 50 * ls.length < ls.sum)

/-- `series.nunique() < min(20, len(df) * 0.1)`; `len(df) * 0.1` is the exact
rational `mkRat nrows 10`. -/
def lowCardinality (nrows : ℕ) (vs : List (Option Value)) : Bool :=
  decide ((nunique vs : ℚ) < min 20 (mkRat (nrows : ℤ) 10))

/-- The six column categories. -/
inductive Category where
  | numeric
  | categorical
  | datetime
  | text
  | boolean
  | other
  deriving DecidableEq

/-- The per-column decision chain of `DataVisualizer._classify_columns`
(data_visualizer.py lines 85-104), one branch per `elif`. -/
def classifyColumn (nrows : ℕ) (c : Column) : Category :=
  if c.dtype = DType.numericD then
    if isBoolEncoded c.values then Category.boolean else Category.numeric
  else if c.dtype = DType.datetimeD then
    Category.datetime
  else if c.dtype = DType.categoricalD ∨ lowCardinality nrows c.values then
    Category.categorical
  else if c.dtype = DType.stringD then
    if meanStrLenGt50 c.values then Category.text else Category.categorical
  else
    Category.other

/-- The `column_types` dictionary: one ordered list of column names per
category. -/
structure CategoryMap where
  numeric : List String
  categorical : List String
  datetime : List String
  text : List String
  boolean : List String
  other : List String
  deriving DecidableEq

/-- The initial dictionary with six empty lists. -/
def CategoryMap.empty : CategoryMap :=
  { numeric := [], categorical := [], datetime := [], text := [], boolean := [], other := [] }

/-- `column_types[cat].append(n)`. -/
def CategoryMap.add (m : CategoryMap) (cat : Category) (n : String) : CategoryMap :=
  match cat with
  | Category.numeric => { m with numeric := m.numeric ++ [n] }
  | Category.categorical => { m with categorical := m.categorical ++ [n] }
  | Category.datetime => { m with datetime := m.datetime ++ [n] }
  | Category.text => { m with text := m.text ++ [n] }
  | Category.boolean => { m with boolean := m.boolean ++ [n] }
  | Category.other => { m with other := m.other ++ [n] }

/-- All names in the map, category by category. -/
def CategoryMap.allNames (m : CategoryMap) : List String :=
  m.numeric ++ m.categorical ++ m.datetime ++ m.text ++ m.boolean ++ m.other

/-- `DataVisualizer._classify_columns`: classify every column of the table in
its original left-to-right order. -/
def classifyColumns (t : Table) : CategoryMap :=
  t.cols.foldl (fun m c => m.add (classifyColumn t.nrows c) c.name) CategoryMap.empty

/-! ### Chart compatibility (`is_compatible` of each chart class) -/

/-- `BarChart.is_compatible` (bar_chart.py lines 111-126). -/
def barIsCompatible (m : CategoryMap) : Bool :=
  let hasNumeric := decide (0 < m.numeric.length)
  let hasCategories := decide (0 < m.categorical.length)
  hasNumeric && hasCategories

/-- `LineChart.is_compatible` (line_chart.py lines 95-112). -/
def lineIsCompatible (m : CategoryMap) : Bool :=
  let hasNumeric := decide (0 < m.numeric.length)
  let hasDatetime := decide (0 < m.datetime.length)
  let hasValidX := hasDatetime || hasNumeric || decide (0 < m.categorical.length)
  hasNumeric && hasValidX

/-- `ScatterChart.is_compatible` (scatter_chart.py lines 85-97). -/
def scatterIsCompatible (m : CategoryMap) : Bool :=
  decide (2 ≤ m.numeric.length)

/-- The keys of the `chart_types` dictionary, in insertion order. -/
def chartTypeNames : List String := ["bar", "line", "scatter"]

/-- Dispatch `chart.is_compatible(column_types)` by chart name. -/
def isCompatibleFor (n : String) (m : CategoryMap) : Bool :=
  if n = "bar" then barIsCompatible m
  else if n = "line" then lineIsCompatible m
  else if n = "scatter" then scatterIsCompatible m
  else false

/-- `DataVisualizer.get_compatible_charts`: the names of the compatible chart
kinds (the key set of the returned dictionary, in iteration order), empty for
an empty DataFrame. -/
def getCompatibleCharts (t : Table) : List String :=
  if t.isEmpty then []
  else
    let m := classifyColumns t
    chartTypeNames.filter (fun n => isCompatibleFor n m)

/-! ### Chart suggestions (`DataVisualizer.get_chart_suggestions`) -/

/-- One suggestion dictionary: chart type, title and parameter mapping. -/
structure Suggestion where
  type : String
  title : String
  params : List (String × String)
  deriving DecidableEq

/-- The bar-chart block of `get_chart_suggestions` (lines 244-269): a bar
suggestion from the first numeric and first categorical column, then, nested
inside the same guard, a colored bar when a second categorical column
exists. -/
def barSuggestions (m : CategoryMap) : List Suggestion :=
  if 0 < m.numeric.length ∧ 0 < m.categorical.length then
    let numCol := m.numeric.getD 0 ""
    let catCol := m.categorical.getD 0 ""
    let first : Suggestion :=
      { type := "bar"
        title := "Distribución de " ++ numCol ++ " por " ++ catCol
        params := [("x", catCol), ("y", numCol)] }
    if 1 < m.categorical.length then
      let colorCol := m.categorical.getD 1 ""
      [first,
       { type := "bar"
         title := "Distribución de " ++ numCol ++ " por " ++ catCol ++
           " (agrupado por " ++ colorCol ++ ")"
         params := [("x", catCol), ("y", numCol), ("color", colorCol), ("aggregation", "sum")] }]
    else [first]
  else []

/-- The line-chart block of `get_chart_suggestions` (lines 272-283). -/
def lineSuggestions (m : CategoryMap) : List Suggestion :=
  if 0 < m.datetime.length ∧ 0 < m.numeric.length then
    let dateCol := m.datetime.getD 0 ""
    let numCol := m.numeric.getD 0 ""
    [{ type := "line"
       title := "Tendencia de " ++ numCol ++ " en el tiempo"
       params := [("x", dateCol), ("y", numCol)] }]
  else []

/-- The scatter-chart block of `get_chart_suggestions` (lines 286-310). -/
def scatterSuggestions (m : CategoryMap) : List Suggestion :=
  if 2 ≤ m.numeric.length then
    let xCol := m.numeric.getD 0 ""
    let yCol := m.numeric.getD 1 ""
    let first : Suggestion :=
      { type := "scatter"
        title := "Relación entre " ++ xCol ++ " y " ++ yCol
        params := [("x", xCol), ("y", yCol)] }
    if 0 < m.categorical.length then
      let colorCol := m.categorical.getD 0 ""
      [first,
       { type := "scatter"
         title := "Relación entre " ++ xCol ++ " y " ++ yCol ++
           " (agrupado por " ++ colorCol ++ ")"
         params := [("x", xCol), ("y", yCol), ("color", colorCol)] }]
    else [first]
  else []

/-- The suggestion list as a function of the category map: the three blocks
appended in the source's fixed order. -/
def suggestFromMap (m : CategoryMap) : List Suggestion :=
  barSuggestions m ++ lineSuggestions m ++ scatterSuggestions m

/-- `DataVisualizer.get_chart_suggestions`: empty for an empty DataFrame,
otherwise the suggestions built from the classified columns. -/
def getChartSuggestions (t : Table) : List Suggestion :=
  if t.isEmpty then [] else suggestFromMap (classifyColumns t)

/-! ### Chart creation and its error flow

The source raises a `ValueError` when a required parameter is missing; an
unknown column name makes pandas `groupby`/column selection or the plotly
call raise; an unrecognized reduction name makes pandas `.agg` raise.  The
spec groups these exceptions into two recoverable kinds, which the embedding
makes explicit: `invalidParameters` for a missing or unknown column
reference, `invalidAggregation` for an unsupported reduction name. -/

inductive ChartError where
  | invalidParameters
  | invalidAggregation
  deriving DecidableEq

/-- `kwargs` of a chart-creation call: a parameter-name/value mapping. -/
def getParam (ps : List (String × String)) (k : String) : Option String :=
  (ps.find? (fun p => p.1 == k)).map Prod.snd

/-- `k in kwargs`. -/
def hasParam (ps : List (String × String)) (k : String) : Bool :=
  (ps.find? (fun p => p.1 == k)).isSome

/-- Python truthiness of an optional string (`if aggregation:` / `if color:`):
present and non-empty. -/
def truthy (o : Option String) : Bool :=
  match o with
  | some s => s ≠ ""
  | none => false

/-- The five reductions the spec's glossary names and the application's UI
offers (ui/data_visualization.py line 203) — the spec's notion of a
"recognized reduction".  The dataframe library's `.agg` resolves strictly
more names than these (e.g. "median", "std", "first"), so this list is used
only to state claims, never to decide the error path. -/
def recognizedAggregations : List String :=
  ["sum", "mean", "count", "min", "max"]

/-- The dataframe library's aggregation-name resolution: `.agg(name)` raises
exactly when the library fails to resolve `name` as a reduction.  Which
names resolve is behavior of the library, not of this repository, and is
open-ended under its reflection-based lookup, so the embedding takes the
resolver as a parameter instead of hard-coding a name set. -/
abbrev AggResolver : Type := String → Bool

/-- The values of the named column, or `[]` when absent (guarded by the
callers' column checks). -/
def columnValues (t : Table) (n : String) : List (Option Value) :=
  ((t.cols.find? (fun c => c.name == n)).map Column.values).getD []

/-- The dtype of the named column, defaulting to `otherD`. -/
def columnDType (t : Table) (n : String) : DType :=
  ((t.cols.find? (fun c => c.name == n)).map Column.dtype).getD DType.otherD

/-- The numeric entries among the non-missing values. -/
def numVals (vs : List (Option Value)) : List ℚ :=
  (dropna vs).filterMap (fun v =>
    match v with
    | Value.num q => some q
    | _ => none)

/-- The numeric result of `series.agg(agg)` for the five reductions the
application's UI offers: sum/mean/min/max over the numeric entries, count of
the non-missing entries.  Numeric results of further library-resolved
reductions (median, std, ...) are not modelled; no theorem inspects them. -/
def applyAggregation (agg : String) (vs : List (Option Value)) : ℚ :=
  if agg = "sum" then (numVals vs).sum
  else if agg = "mean" then (numVals vs).sum / ((numVals vs).length : ℚ)
  else if agg = "count" then ((dropna vs).length : ℚ)
  else if agg = "min" then ((numVals vs).min?).getD 0
  else if agg = "max" then ((numVals vs).max?).getD 0
  else 0

/-- The composite group key of row `i`: one entry per grouping column. -/
def keyAt (keyCols : List (List (Option Value))) (i : ℕ) : List (Option Value) :=
  keyCols.map (fun col => col.getD i none)

/-- `df.groupby(keyNames)[y].agg(agg).reset_index()`: one row per distinct
composite key (in first-appearance order; pandas sorts keys, which no
consumer here observes), with the key columns followed by the aggregated
`y` column. -/
def groupbyAgg (t : Table) (keyNames : List String) (y : String) (agg : String) : Table :=
  let keyCols := keyNames.map (columnValues t)
  let ys := columnValues t y
  let keys := ((List.range t.nrows).map (keyAt keyCols)).dedup
  let groupFor := fun k =>
    (List.range t.nrows).filterMap (fun i =>
      if keyAt keyCols i = k then some (ys.getD i none) else none)
  { cols :=
      (List.range keyNames.length).map (fun j =>
        { name := keyNames.getD j ""
          dtype := columnDType t (keyNames.getD j "")
          values := keys.map (fun k => k.getD j none) }) ++
      [{ name := y
         dtype := DType.numericD
         values := keys.map (fun k => some (Value.num (applyAggregation agg (groupFor k)))) }]
    nrows := keys.length }

/-- The figure object, at the granularity the claims observe: the data frame
handed to plotly and the presentational settings of the `px.*` call and the
`update_layout` call. -/
structure Fig where
  kind : String
  plotDf : Table
  x : String
  y : String
  color : Option String
  size : Option String
  title : String
  orientation : String
  height : ℕ
  deriving DecidableEq

/-- `px.bar(plot_df, ...)` plus `update_layout`: plotly raises when `x`, `y`
or a given `color` is not a column of the plotted frame. -/
def pxBar (df : Table) (x y : String) (color : Option String)
    (title orientation : String) : Except ChartError Fig :=
  if !(df.hasCol x) || !(df.hasCol y) then Except.error ChartError.invalidParameters
  else
    match color with
    | some c =>
        if !(df.hasCol c) then Except.error ChartError.invalidParameters
        else Except.ok
          { kind := "bar", plotDf := df, x := x, y := y, color := color, size := none
            title := title, orientation := orientation, height := 600 }
    | none => Except.ok
        { kind := "bar", plotDf := df, x := x, y := y, color := color, size := none
          title := title, orientation := orientation, height := 600 }

/-- `BarChart.create_chart` (bar_chart.py lines 29-83): missing `x`/`y`
raises `ValueError`; with a truthy `aggregation`, group by `x` (and `color`
when truthy) and reduce `y` — pandas raises on an unknown column before it
resolves the reduction name against the library resolver; finally plot. -/
def barCreateChart (aggResolves : AggResolver) (t : Table)
    (ps : List (String × String)) : Except ChartError Fig :=
  if !(hasParam ps "x") || !(hasParam ps "y") then
    Except.error ChartError.invalidParameters
  else
    let x := (getParam ps "x").getD ""
    let y := (getParam ps "y").getD ""
    let title := (getParam ps "title").getD ("Gráfico de barras de " ++ y ++ " por " ++ x)
    let color := getParam ps "color"
    let orientation := (getParam ps "orientation").getD "v"
    let aggregation := getParam ps "aggregation"
    if truthy aggregation then
      let agg := aggregation.getD ""
      let keyNames := if truthy color then [x, color.getD ""] else [x]
      if keyNames.any (fun k => !(t.hasCol k)) || !(t.hasCol y) then
        Except.error ChartError.invalidParameters
      else if !(aggResolves agg) then
        Except.error ChartError.invalidAggregation
      else
        pxBar (groupbyAgg t keyNames y agg) x y color title orientation
    else
      pxBar t x y color title orientation

/-- `px.line(plot_df, ...)` plus `update_layout`. -/
def pxLine (df : Table) (x y : String) (color : Option String)
    (title : String) : Except ChartError Fig :=
  if !(df.hasCol x) || !(df.hasCol y) then Except.error ChartError.invalidParameters
  else
    match color with
    | some c =>
        if !(df.hasCol c) then Except.error ChartError.invalidParameters
        else Except.ok
          { kind := "line", plotDf := df, x := x, y := y, color := color, size := none
            title := title, orientation := "v", height := 600 }
    | none => Except.ok
        { kind := "line", plotDf := df, x := x, y := y, color := color, size := none
          title := title, orientation := "v", height := 600 }

/-- `LineChart.create_chart` (line_chart.py lines 29-67): same validation and
aggregation flow as the bar chart. -/
def lineCreateChart (aggResolves : AggResolver) (t : Table)
    (ps : List (String × String)) : Except ChartError Fig :=
  if !(hasParam ps "x") || !(hasParam ps "y") then
    Except.error ChartError.invalidParameters
  else
    let x := (getParam ps "x").getD ""
    let y := (getParam ps "y").getD ""
    let title := (getParam ps "title").getD ("Gráfico de líneas de " ++ y ++ " por " ++ x)
    let color := getParam ps "color"
    let aggregation := getParam ps "aggregation"
    if truthy aggregation then
      let agg := aggregation.getD ""
      let keyNames := if truthy color then [x, color.getD ""] else [x]
      if keyNames.any (fun k => !(t.hasCol k)) || !(t.hasCol y) then
        Except.error ChartError.invalidParameters
      else if !(aggResolves agg) then
        Except.error ChartError.invalidAggregation
      else
        pxLine (groupbyAgg t keyNames y agg) x y color title
    else
      pxLine t x y color title

/-- `px.scatter(df, ...)` plus `update_layout`. -/
def pxScatter (df : Table) (x y : String) (color size : Option String)
    (title : String) : Except ChartError Fig :=
  if !(df.hasCol x) || !(df.hasCol y) then Except.error ChartError.invalidParameters
  else if (match color with | some c => !(df.hasCol c) | none => false) then
    Except.error ChartError.invalidParameters
  else if (match size with | some s => !(df.hasCol s) | none => false) then
    Except.error ChartError.invalidParameters
  else Except.ok
    { kind := "scatter", plotDf := df, x := x, y := y, color := color, size := size
      title := title, orientation := "v", height := 600 }

/-- `ScatterChart.create_chart` (scatter_chart.py lines 29-57): no
aggregation support, plots the frame directly. -/
def scatterCreateChart (t : Table) (ps : List (String × String)) : Except ChartError Fig :=
  if !(hasParam ps "x") || !(hasParam ps "y") then
    Except.error ChartError.invalidParameters
  else
    let x := (getParam ps "x").getD ""
    let y := (getParam ps "y").getD ""
    let title := (getParam ps "title").getD ("Gráfico de dispersión de " ++ y ++ " vs " ++ x)
    let color := getParam ps "color"
    let size := getParam ps "size"
    pxScatter t x y color size title

/-- The observable outcome of `DataVisualizer.create_chart`:
`created` returns the figure; `reportedError` is the `except Exception`
handler (`st.error(...)` then `return None`); `noData` is the early
`return None` on an empty frame; `unsupportedType` is the uncaught
`ValueError` raised before the `try` block. -/
inductive VisualizerResult where
  | created (f : Fig)
  | reportedError (e : ChartError)
  | noData
  | unsupportedType
  deriving DecidableEq

/-- `DataVisualizer.create_chart` (data_visualizer.py lines 108-143). -/
def visualizerCreateChart (aggResolves : AggResolver) (t : Table)
    (chartType : String) (ps : List (String × String)) : VisualizerResult :=
  if t.isEmpty then VisualizerResult.noData
  else if !(chartTypeNames.contains chartType) then VisualizerResult.unsupportedType
  else
    let res :=
      if chartType = "bar" then barCreateChart aggResolves t ps
      else if chartType = "line" then lineCreateChart aggResolves t ps
      else scatterCreateChart t ps
    match res with
    | Except.ok f => VisualizerResult.created f
    | Except.error e => VisualizerResult.reportedError e

/-! ### Concrete tables and columns used to instantiate the theorems -/

/-- A pandas-categorical column of two region labels. -/
def regionCol : Column :=
  { name := "region", dtype := DType.categoricalD
    values := [some (Value.str "north"), some (Value.str "south")] }

/-- A numeric column whose values are not all in {0, 1}. -/
def revenueCol : Column :=
  { name := "revenue", dtype := DType.numericD
    values := [some (Value.num 5), some (Value.num 7)] }

/-- A datetime column. -/
def dateCol : Column :=
  { name := "date", dtype := DType.datetimeD
    values := [some (Value.time 0), some (Value.time 1)] }

/-- A two-column table: one categorical, one numeric. -/
def tblRegionRevenue : Table := { cols := [regionCol, revenueCol], nrows := 2 }

/-- A three-column table: categorical, numeric, datetime. -/
def tblRegionRevenueDate : Table := { cols := [regionCol, revenueCol, dateCol], nrows := 2 }

/-- A 60-character string. -/
def longStrX : String := String.mk (List.replicate 60 'x')

/-- A string column with a single distinct 60-character value over 30 rows:
low cardinality (1 < min(20, 3)) and mean length 60. -/
def notesLowCard : Column :=
  { name := "notes", dtype := DType.stringD
    values := List.replicate 30 (some (Value.str longStrX)) }

/-- A string column of three distinct 60-character values over 3 rows:
cardinality 3 is not below min(20, 0.3), mean length 60. -/
def notesHighCard : Column :=
  { name := "summary", dtype := DType.stringD
    values := [some (Value.str (String.mk (List.replicate 60 'a'))),
               some (Value.str (String.mk (List.replicate 60 'b'))),
               some (Value.str (String.mk (List.replicate 60 'c')))] }

/-- A string column of three distinct short values over 3 rows: cardinality 3
is not below min(20, 0.3), mean length 1. -/
def shortHighCard : Column :=
  { name := "code", dtype := DType.stringD
    values := [some (Value.str "a"), some (Value.str "b"), some (Value.str "c")] }

/-- A non-numeric, non-datetime, non-string column (e.g. a timedelta or
object-wrapped payload) with one distinct value over 30 rows. -/
def payloadLowCard : Column :=
  { name := "payload", dtype := DType.otherD
    values := List.replicate 30 (some (Value.obj 0)) }

/-- The same kind of column with 30 distinct values over 30 rows. -/
def payloadHighCard : Column :=
  { name := "blob", dtype := DType.otherD
    values := (List.range 30).map (fun i => some (Value.obj i)) }

/-- A numeric column whose non-missing values are exactly {0, 1}. -/
def flagCol : Column :=
  { name := "flag", dtype := DType.numericD
    values := [some (Value.num 0), some (Value.num 1), none, some (Value.num 0)] }

/-- A numeric column with non-missing values {0, 1, 2}. -/
def countsCol : Column :=
  { name := "visits", dtype := DType.numericD
    values := [some (Value.num 0), some (Value.num 1), some (Value.num 2)] }

/-- An all-missing numeric column. -/
def allMissingCol : Column :=
  { name := "score", dtype := DType.numericD, values := [none, none, none] }

/-- A table with no columns. -/
def tblNoCols : Table := { cols := [], nrows := 5 }

/-- A table with a column but zero rows. -/
def tblNoRows : Table := { cols := [revenueCol], nrows := 0 }

/-- A concrete value of the library resolver used to instantiate theorems:
it resolves the five UI names together with further reductions pandas is
documented to resolve — among them "median" — and rejects made-up names
such as "median_unsupported". -/
def pandasLikeResolver : AggResolver := fun a =>
  ["sum", "mean", "count", "min", "max", "median", "std", "var",
   "sem", "prod", "first", "last", "nunique"].contains a

/-! ## Theorems -/

/-- Appending a name to one category list adds exactly that name to the
multiset of all classified names. -/
lemma allNames_add (m : CategoryMap) (cat : Category) (n : String) :
    (((m.add cat n).allNames : List String) : Multiset String)
      = ((m.allNames : List String) : Multiset String) + {n} := by
  cases cat <;>
    simp [CategoryMap.add, CategoryMap.allNames, ← Multiset.coe_add, ← Multiset.cons_coe,
      ← Multiset.singleton_add, add_comm, add_assoc, add_left_comm]

/-- The classification fold over any starting map collects exactly the
starting names plus the column names. -/
lemma classifyFold_allNames (nrows : ℕ) (cols : List Column) (m : CategoryMap) :
    (((cols.foldl (fun m c => m.add (classifyColumn nrows c) c.name) m).allNames :
        List String) : Multiset String)
      = ((m.allNames : List String) : Multiset String)
          + ((cols.map Column.name : List String) : Multiset String) := by
  induction cols generalizing m with
  | nil => simp
  | cons c cs ih =>
      simp [List.foldl_cons, ih, allNames_add, add_comm, add_assoc, add_left_comm]
      exact List.perm_middle.symm

/-- C1: the Category Map produced by `_classify_columns` assigns every column
of the table to exactly one of the six categories: the concatenation of the
six category lists is a permutation of the table's column names, so no
column is omitted, none is listed twice, and each appears under exactly one
category. -/
theorem classify_total_exclusive (t : Table) :
    ((classifyColumns t).allNames).Perm (t.cols.map Column.name) := by
  rw [← Multiset.coe_eq_coe]
  simpa [CategoryMap.empty, CategoryMap.allNames] using
    classifyFold_allNames t.nrows t.cols CategoryMap.empty

/-- C5: each chart kind's compatibility check is exactly its static predicate
over the category map: bar needs a numeric and a categorical column; line
needs a numeric column and a datetime, numeric or categorical column;
scatter needs two numeric columns. -/
theorem compat_static_predicates (m : CategoryMap) :
    (barIsCompatible m = true ↔ 0 < m.numeric.length ∧ 0 < m.categorical.length) ∧
    (lineIsCompatible m = true ↔ 0 < m.numeric.length ∧
      (0 < m.datetime.length ∨ 0 < m.numeric.length ∨ 0 < m.categorical.length)) ∧
    (scatterIsCompatible m = true ↔ 2 ≤ m.numeric.length) := by
  refine ⟨?_, ?_, ?_⟩ <;>
    simp [barIsCompatible, lineIsCompatible, scatterIsCompatible]
  tauto

/-- C10: on an empty table — zero columns, or columns but zero rows — the
suggestion list is empty and the compatible-chart map is empty; both
functions return before classifying anything and are total, so suggestion
generation never raises. -/
theorem empty_table_results (t : Table) (h : t.nrows = 0 ∨ t.cols = []) :
    getChartSuggestions t = [] ∧ getCompatibleCharts t = [] := by
  have he : t.isEmpty = true := by
    rcases h with h | h <;> simp [Table.isEmpty, h]
  simp [getChartSuggestions, getCompatibleCharts, he]

/-- Witness for C10: a zero-column table and a zero-row table with a column
both yield no suggestions and no compatible charts. -/
theorem empty_table_results_witness :
    (getChartSuggestions tblNoCols = [] ∧ getCompatibleCharts tblNoCols = []) ∧
    (getChartSuggestions tblNoRows = [] ∧ getCompatibleCharts tblNoRows = []) :=
  ⟨empty_table_results tblNoCols (Or.inr rfl), empty_table_results tblNoRows (Or.inl rfl)⟩

/-- Counterexample to C2: a table with exactly one numeric and one
categorical column (and no datetime column) for which the compatible set is
not exactly {bar} — the line chart is compatible too, because any numeric
column satisfies its x-axis disjunct. -/
theorem compat_exactly_bar_cex :
    (classifyColumns tblRegionRevenue).numeric.length = 1 ∧
    (classifyColumns tblRegionRevenue).categorical.length = 1 ∧
    (classifyColumns tblRegionRevenue).datetime = [] ∧
    lineIsCompatible (classifyColumns tblRegionRevenue) = true ∧
    getCompatibleCharts tblRegionRevenue = ["bar", "line"] := by decide

/-- C2 (amended): on every non-empty table whose category map has exactly
one numeric and one categorical column and no datetime column,
`get_compatible_charts` returns exactly {bar, line}: bar and line are
compatible and scatter is not. -/
theorem compat_one_numeric_one_categorical (t : Table) (hne : t.isEmpty = false)
    (hn : (classifyColumns t).numeric.length = 1)
    (hc : (classifyColumns t).categorical.length = 1)
    (hd : (classifyColumns t).datetime = []) :
    getCompatibleCharts t = ["bar", "line"] := by
  simp [getCompatibleCharts, hne, chartTypeNames, isCompatibleFor, barIsCompatible,
    lineIsCompatible, scatterIsCompatible, hn, hc, hd, List.filter]

/-- Witness for the amended C2 at a concrete one-numeric/one-categorical
table. -/
theorem compat_one_numeric_one_categorical_witness :
    getCompatibleCharts tblRegionRevenue = ["bar", "line"] :=
  compat_one_numeric_one_categorical tblRegionRevenue (by decide) (by decide)
    (by decide) (by decide)

/-- Counterexample to C3: a string column over 30 rows whose mean string
length is 60 (> 50) but whose unique-value count 1 is below
min(20, 0.1 × 30) = 3; the classifier makes it categorical, not text, so the
mean-length rule does not apply "regardless of cardinality". -/
theorem classify_string_meanlen_cex :
    notesLowCard.dtype = DType.stringD ∧
    lowCardinality 30 notesLowCard.values = true ∧
    meanStrLenGt50 notesLowCard.values = true ∧
    classifyColumn 30 notesLowCard = Category.categorical := by decide

/-- C3 (amended): for a string-typed column the low-cardinality rule runs
first: below the min(20, 0.1 × rowcount) unique-count threshold the column
is categorical regardless of mean length; at or above the threshold the mean
string length decides, text when it exceeds 50 and categorical otherwise. -/
theorem classify_string_rule (nrows : ℕ) (c : Column) (hd : c.dtype = DType.stringD) :
    classifyColumn nrows c =
      (if lowCardinality nrows c.values then Category.categorical
       else if meanStrLenGt50 c.values then Category.text
       else Category.categorical) := by
  simp [classifyColumn, hd]

/-- Witness for the amended C3: a high-cardinality long-string column is
text, a high-cardinality short-string column is categorical. -/
theorem classify_string_rule_witness :
    classifyColumn 3 notesHighCard = Category.text ∧
    classifyColumn 3 shortHighCard = Category.categorical :=
  ⟨(classify_string_rule 3 notesHighCard rfl).trans (by decide),
   (classify_string_rule 3 shortHighCard rfl).trans (by decide)⟩

/-- C4: on every non-empty table whose category map has exactly one numeric
column n, one categorical column c and one datetime column d,
`get_chart_suggestions` returns exactly the bar suggestion (x = c, y = n)
followed by the line suggestion (x = d, y = n) and no scatter suggestion,
in the fixed bar, bar-with-color, line, scatter, scatter-with-color
probing order, using the first column of each category in the table's
original column order. -/
theorem suggest_priority_example (t : Table) (hne : t.isEmpty = false)
    (n c d : String)
    (hn : (classifyColumns t).numeric = [n])
    (hc : (classifyColumns t).categorical = [c])
    (hd : (classifyColumns t).datetime = [d]) :
    getChartSuggestions t =
      [{ type := "bar"
         title := "Distribución de " ++ n ++ " por " ++ c
         params := [("x", c), ("y", n)] },
       { type := "line"
         title := "Tendencia de " ++ n ++ " en el tiempo"
         params := [("x", d), ("y", n)] }] := by
  simp [getChartSuggestions, hne, suggestFromMap, barSuggestions, lineSuggestions,
    scatterSuggestions, hn, hc, hd]

/-- Witness for C4 at the concrete table with columns
[region: categorical, revenue: numeric, date: datetime]. -/
theorem suggest_priority_example_witness :
    getChartSuggestions tblRegionRevenueDate =
      [{ type := "bar"
         title := "Distribución de " ++ "revenue" ++ " por " ++ "region"
         params := [("x", "region"), ("y", "revenue")] },
       { type := "line"
         title := "Tendencia de " ++ "revenue" ++ " en el tiempo"
         params := [("x", "date"), ("y", "revenue")] }] :=
  suggest_priority_example tblRegionRevenueDate (by decide) "revenue" "region" "date"
    (by decide) (by decide) (by decide)

/-- C6: a numeric-typed column is classified boolean exactly when every
distinct non-missing value lies in {0, 1} (the Python literal set
{0, 1, True, False}), and numeric exactly otherwise. -/
theorem classify_numeric_vs_boolean (nrows : ℕ) (c : Column)
    (hd : c.dtype = DType.numericD) :
    (classifyColumn nrows c = Category.boolean ↔
      ∀ v ∈ dropna c.values, v = Value.num 0 ∨ v = Value.num 1) ∧
    (classifyColumn nrows c = Category.numeric ↔
      ¬ ∀ v ∈ dropna c.values, v = Value.num 0 ∨ v = Value.num 1) := by
  have hb : isBoolEncoded c.values = true ↔
      ∀ v ∈ dropna c.values, v = Value.num 0 ∨ v = Value.num 1 := by
    simp [isBoolEncoded, List.all_eq_true, List.mem_dedup]
  cases hbe : isBoolEncoded c.values with
  | true =>
      have hP := hb.mp hbe
      simp [classifyColumn, hd, hbe]
      exact ⟨hP, fun x hx h0 => (hP x hx).resolve_left h0⟩
  | false =>
      have hP : ¬ ∀ v ∈ dropna c.values, v = Value.num 0 ∨ v = Value.num 1 := by
        intro hp
        rw [hb.mpr hp] at hbe
        exact Bool.noConfusion hbe
      simp [classifyColumn, hd, hbe, hP]

/-- Witness for C6: a column with non-missing values {0, 1} is boolean; one
with {0, 1, 2} is numeric. -/
theorem classify_numeric_vs_boolean_witness :
    classifyColumn 4 flagCol = Category.boolean ∧
    classifyColumn 3 countsCol = Category.numeric :=
  ⟨((classify_numeric_vs_boolean 4 flagCol rfl).1).mpr (by decide),
   ((classify_numeric_vs_boolean 3 countsCol rfl).2).mpr (by decide)⟩

/-- C7: an all-missing numeric-typed column is classified boolean: its empty
distinct-value set passes the subset-of-{0, 1, True, False} test
vacuously. -/
theorem classify_all_missing_numeric (nrows : ℕ) (c : Column)
    (hd : c.dtype = DType.numericD) (hmiss : ∀ v ∈ c.values, v = none) :
    classifyColumn nrows c = Category.boolean := by
  have hnil : dropna c.values = [] := by
    simp only [dropna, List.filterMap_eq_nil_iff, id]
    exact hmiss
  simp [classifyColumn, hd, isBoolEncoded, hnil]

/-- Witness for C7 at a three-row all-null numeric column. -/
theorem classify_all_missing_numeric_witness :
    classifyColumn 3 allMissingCol = Category.boolean :=
  classify_all_missing_numeric 3 allMissingCol rfl (by decide)

/-- Counterexample to C8: a 30-row column that is not numeric, not datetime
and not of textual/object type, with a single distinct value (below the
min(20, 3) threshold); the classifier makes it categorical rather than
letting it fall through to other. -/
theorem lowcard_nonstring_cex :
    payloadLowCard.dtype ≠ DType.numericD ∧
    payloadLowCard.dtype ≠ DType.datetimeD ∧
    payloadLowCard.dtype ≠ DType.stringD ∧
    payloadLowCard.dtype ≠ DType.categoricalD ∧
    lowCardinality 30 payloadLowCard.values = true ∧
    classifyColumn 30 payloadLowCard = Category.categorical := by decide

/-- C8 (amended): the low-cardinality rule is not restricted to
textual/object columns — it fires for every column that is neither
numeric- nor datetime-typed.  A column that is also neither
pandas-categorical nor string/object typed is categorical exactly when its
distinct non-missing count is below min(20, 0.1 × row_count), and falls
through to other only otherwise. -/
theorem classify_lowcard_any_dtype (nrows : ℕ) (c : Column)
    (hd : c.dtype = DType.otherD) :
    classifyColumn nrows c =
      (if lowCardinality nrows c.values then Category.categorical
       else Category.other) := by
  simp [classifyColumn, hd]

/-- Witness for the amended C8: the low-cardinality payload column is
categorical, the high-cardinality one is other. -/
theorem classify_lowcard_any_dtype_witness :
    classifyColumn 30 payloadLowCard = Category.categorical ∧
    classifyColumn 30 payloadHighCard = Category.other :=
  ⟨(classify_lowcard_any_dtype 30 payloadLowCard rfl).trans (by decide),
   (classify_lowcard_any_dtype 30 payloadHighCard rfl).trans (by decide)⟩

/-- Counterexample to C9: with the library resolving "median" (as pandas
does), bar-chart creation at a well-formed request whose aggregation name
"median" is not among the spec's recognized reductions succeeds, rather than
failing with an invalid-aggregation error. -/
theorem chart_creation_agg_cex :
    recognizedAggregations.contains "median" = false ∧
    pandasLikeResolver "median" = true ∧
    (barCreateChart pandasLikeResolver tblRegionRevenue
        [("x", "region"), ("y", "revenue"), ("aggregation", "median")]).isOk = true := by
  decide

/-- C9 (amended): chart creation fails with `invalidParameters` when `x` or
`y` is absent from the parameters or names a column the table lacks; with
well-formed parameters it fails with `invalidAggregation` exactly for
aggregation names the dataframe library does not resolve as a reduction — a
strict superset of the spec's five recognized reductions, so names like
"median" succeed — and `DataVisualizer.create_chart` catches either error
and reports it to the caller instead of crashing.  The library's
aggregation-name resolution enters as the parameter `aggResolves`. -/
theorem chart_creation_error_kinds (aggResolves : AggResolver) (t : Table)
    (ps : List (String × String)) :
    ((hasParam ps "x" = false ∨ hasParam ps "y" = false) →
      barCreateChart aggResolves t ps = Except.error ChartError.invalidParameters) ∧
    (hasParam ps "x" = true → hasParam ps "y" = true →
      (t.hasCol ((getParam ps "x").getD "") = false ∨
        t.hasCol ((getParam ps "y").getD "") = false) →
      barCreateChart aggResolves t ps = Except.error ChartError.invalidParameters) ∧
    (hasParam ps "x" = true → hasParam ps "y" = true →
      t.hasCol ((getParam ps "x").getD "") = true →
      t.hasCol ((getParam ps "y").getD "") = true →
      (∀ cl, getParam ps "color" = some cl → cl ≠ "" → t.hasCol cl = true) →
      ∀ a, getParam ps "aggregation" = some a → a ≠ "" →
      aggResolves a = false →
      barCreateChart aggResolves t ps = Except.error ChartError.invalidAggregation) ∧
    (∀ e, t.isEmpty = false → barCreateChart aggResolves t ps = Except.error e →
      visualizerCreateChart aggResolves t "bar" ps = VisualizerResult.reportedError e) := by
  refine ⟨?_, ?_, ?_, ?_⟩
  · intro h
    rcases h with h | h <;> simp [barCreateChart, h]
  · intro hx hy hcol
    by_cases hagg : truthy (getParam ps "aggregation") = true
    · rcases hcol with h | h
      · by_cases hcolor : truthy (getParam ps "color") = true <;>
          simp [barCreateChart, hx, hy, hagg, hcolor, h]
      · simp [barCreateChart, hx, hy, hagg, h]
    · have hagg' : truthy (getParam ps "aggregation") = false := by
        simpa using hagg
      rcases hcol with h | h <;> simp [barCreateChart, pxBar, hx, hy, hagg', h]
  · intro hx hy hcx hcy hcolor a ha hane hrec
    cases hco : getParam ps "color" with
    | none =>
        simp [barCreateChart, hx, hy, ha, hco, truthy, hane, hcx, hcy, hrec]
    | some cl =>
        by_cases hcl : cl = ""
        · subst hcl
          simp [barCreateChart, hx, hy, ha, hco, truthy, hane, hcx, hcy, hrec]
        · have hhc : t.hasCol cl = true := hcolor cl hco hcl
          simp [barCreateChart, hx, hy, ha, hco, truthy, hane, hcl, hhc, hcx, hcy, hrec]
  · intro e hne herr
    simp [visualizerCreateChart, hne, chartTypeNames, herr]

/-- Witness for the amended C9: a missing `y`, an unknown `x`, and a
library-unresolved aggregation name at a concrete table and resolver, and
the visualizer-level report of the first failure. -/
theorem chart_creation_error_kinds_witness :
    barCreateChart pandasLikeResolver tblRegionRevenue [("x", "region")] =
      Except.error ChartError.invalidParameters ∧
    barCreateChart pandasLikeResolver tblRegionRevenue
        [("x", "bogus"), ("y", "revenue")] =
      Except.error ChartError.invalidParameters ∧
    barCreateChart pandasLikeResolver tblRegionRevenue
        [("x", "region"), ("y", "revenue"), ("aggregation", "median_unsupported")] =
      Except.error ChartError.invalidAggregation ∧
    visualizerCreateChart pandasLikeResolver tblRegionRevenue "bar" [("x", "region")] =
      VisualizerResult.reportedError ChartError.invalidParameters := by
  refine ⟨?_, ?_, ?_, ?_⟩
  · exact (chart_creation_error_kinds pandasLikeResolver tblRegionRevenue
      [("x", "region")]).1 (Or.inr (by decide))
  · exact (chart_creation_error_kinds pandasLikeResolver tblRegionRevenue
      [("x", "bogus"), ("y", "revenue")]).2.1 (by decide) (by decide) (Or.inl (by decide))
  · exact (chart_creation_error_kinds pandasLikeResolver tblRegionRevenue
      [("x", "region"), ("y", "revenue"), ("aggregation", "median_unsupported")]).2.2.1
      (by decide) (by decide) (by decide) (by decide)
      (fun cl h => by simp [getParam] at h)
      "median_unsupported" (by decide) (by decide) (by decide)
  · exact (chart_creation_error_kinds pandasLikeResolver tblRegionRevenue
      [("x", "region")]).2.2.2
      ChartError.invalidParameters (by decide)
      ((chart_creation_error_kinds pandasLikeResolver tblRegionRevenue
        [("x", "region")]).1 (Or.inr (by decide)))

end DataViz
